import Mathlib

/-!
Verification of the craftowl image-processor API (src/main.py) against its
natural-language specification.  The Python source is shallowly embedded:
pure computations become Lean functions, machine integers become Nat/Int,
Python floats become exact rationals, fallible code returns Except/Option.
External collaborators that are not part of the repository (Pillow's decoder,
Gaussian blur and PNG encoder, the ImageMagick and potrace binaries) are
universally quantified function parameters, so every theorem below holds for
any behaviour of those collaborators.
-/

namespace ImgApi

/-- An RGBA sample as produced by Pillow's `getdata()` on an RGBA image:
four channels, each 0-255. -/
structure RGBA where
  r : Nat
  g : Nat
  b : Nat
  a : Nat
deriving DecidableEq, Repr

/-- A decoded raster: canvas dimensions plus the row-major pixel list,
mirroring `img.size` and `img.getdata()` in src/main.py. -/
structure Raster where
  width : Nat
  height : Nat
  pixels : List RGBA
deriving DecidableEq, Repr

/-- Perceptual brightness from src/main.py line 103:
`0.299 * r + 0.587 * g + 0.114 * b`, with the float coefficients read as the
exact rationals they denote. -/
def luma (p : RGBA) : Rat :=
  (299 * (p.r : Rat) + 587 * (p.g : Rat) + 114 * (p.b : Rat)) / 1000

/-- The per-pixel branch of `make_transparent` (src/main.py lines 101-107):
pixels strictly darker than the threshold with non-zero alpha become solid
black `(0,0,0,255)`, everything else becomes fully transparent
`(255,255,255,0)`. -/
def thresholdPixel (thr : Rat) (p : RGBA) : RGBA :=
  if luma p < thr ∧ 0 < p.a then ⟨0, 0, 0, 255⟩ else ⟨255, 255, 255, 0⟩

/-- The threshold loop of `make_transparent` applied to a whole raster
(src/main.py lines 97-110): the output canvas is `img.size` and the pixel
list is the pointwise image of `thresholdPixel`. -/
def thresholdRaster (thr : Rat) (img : Raster) : Raster :=
  ⟨img.width, img.height, img.pixels.map (thresholdPixel thr)⟩

/-- The raster-level body of `make_transparent` (src/main.py lines 90-110):
an optional pre-threshold Gaussian blur — applied exactly when a radius is
supplied and is strictly positive, matching the Python truthiness test
`if pillow_blur_radius and pillow_blur_radius > 0` — followed by the
threshold loop.  `pblur` stands for Pillow's `ImageFilter.GaussianBlur`. -/
def transparentMask (pblur : Raster → Rat → Raster) (img : Raster)
    (threshold : Int) (pillowBlurRadius : Option Rat) : Raster :=
  let img1 :=
    match pillowBlurRadius with
    | some r => if 0 < r then pblur img r else img
    | none => img
  thresholdRaster ((threshold : Int) : Rat) img1

/-- Embeds `make_transparent` (src/main.py lines 82-118).  `decode` stands for
`Image.open` (`none` models a decode failure, which the function turns into a
raised exception), `pblur` for Pillow's Gaussian blur and `pngEncode` for
`Image.save(format=PNG)`.  The `convert('RGBA')` step is the identity on the
RGBA rasters modelled here. -/
def make_transparent (decode : List Nat → Option Raster)
    (pblur : Raster → Rat → Raster) (pngEncode : Raster → List Nat)
    (imageData : List Nat) (threshold : Int) (pillowBlurRadius : Option Rat) :
    Except String (List Nat) :=
  match decode imageData with
  | none => Except.error ("Error creating transparent version: cannot identify image file")
  | some img =>
      Except.ok (pngEncode (transparentMask pblur img threshold pillowBlurRadius))

/-- The spec's classification rule, in the spec's own vocabulary: a pixel is
opaque iff its luma is strictly below the threshold and its source alpha is
non-zero. -/
def opaquePixelSpec (thr : Rat) (p : RGBA) : Prop :=
  luma p < thr ∧ p.a ≠ 0

instance (thr : Rat) (p : RGBA) : Decidable (opaquePixelSpec thr p) := by
  unfold opaquePixelSpec
  infer_instance

theorem transparentMask_some (pblur : Raster → Rat → Raster) (img : Raster)
    (threshold : Int) (r : Rat) :
    transparentMask pblur img threshold (some r)
      = thresholdRaster ((threshold : Int) : Rat) (if 0 < r then pblur img r else img) := rfl

theorem transparentMask_none (pblur : Raster → Rat → Raster) (img : Raster)
    (threshold : Int) :
    transparentMask pblur img threshold none
      = thresholdRaster ((threshold : Int) : Rat) img := rfl

theorem thresholdRaster_width (thr : Rat) (img : Raster) :
    (thresholdRaster thr img).width = img.width := rfl

theorem thresholdRaster_height (thr : Rat) (img : Raster) :
    (thresholdRaster thr img).height = img.height := rfl

/-- A sample 2x2 raster used as concrete input by witnesses. -/
def img0 : Raster :=
  ⟨2, 2, [⟨10, 10, 10, 255⟩, ⟨255, 255, 255, 255⟩, ⟨0, 0, 0, 0⟩, ⟨200, 200, 200, 128⟩]⟩

/-- Identity stand-in for Pillow's Gaussian blur, used by witnesses. -/
def blur0 : Raster → Rat → Raster := fun i _ => i

/-- A concrete decoder stand-in used by witnesses: every byte string decodes
to `img0`. -/
def decode0 : List Nat → Option Raster := fun _ => some img0

/-- A concrete PNG-encoder stand-in used by witnesses: dimensions followed by
the flattened channel data. -/
def enc0 : Raster → List Nat :=
  fun i => i.width :: i.height :: i.pixels.flatMap (fun p => [p.r, p.g, p.b, p.a])

/-- Claim C1: for every decoded RGBA raster and every integer threshold, the
threshold loop of `make_transparent` marks a pixel opaque exactly when its
luma `0.299R + 0.587G + 0.114B` is strictly below the threshold and its
source alpha is non-zero; opaque pixels are written as `(0,0,0,255)`, all
others as `(255,255,255,0)`, and no third pixel value occurs in the
output. -/
theorem c1_threshold_classification (img : Raster) (threshold : Int) (i : Nat)
    (p q : RGBA) (hp : img.pixels[i]? = some p)
    (hq : (thresholdRaster ((threshold : Int) : Rat) img).pixels[i]? = some q) :
    (opaquePixelSpec ((threshold : Int) : Rat) p ↔ q = ⟨0, 0, 0, 255⟩) ∧
    (¬ opaquePixelSpec ((threshold : Int) : Rat) p ↔ q = ⟨255, 255, 255, 0⟩) ∧
    (q = ⟨0, 0, 0, 255⟩ ∨ q = ⟨255, 255, 255, 0⟩) := by
  have hmap : (thresholdRaster ((threshold : Int) : Rat) img).pixels[i]?
      = (img.pixels[i]?).map (thresholdPixel ((threshold : Int) : Rat)) := by
    simp only [thresholdRaster, List.getElem?_map]
  rw [hmap, hp] at hq
  simp only [Option.map_some', Option.some.injEq] at hq
  subst hq
  unfold thresholdPixel opaquePixelSpec
  refine ⟨⟨fun h => ?_, fun h => ?_⟩, ⟨fun h => ?_, fun h => ?_⟩, ?_⟩
  · rw [if_pos ⟨h.1, Nat.pos_of_ne_zero h.2⟩]
  · by_contra hcon
    rw [if_neg (fun hc => hcon ⟨hc.1, Nat.pos_iff_ne_zero.mp hc.2⟩)] at h
    exact absurd h (by simp)
  · rw [if_neg (fun hc => h ⟨hc.1, Nat.pos_iff_ne_zero.mp hc.2⟩)]
  · intro hc
    rw [if_pos ⟨hc.1, Nat.pos_of_ne_zero hc.2⟩] at h
    exact absurd h (by simp)
  · by_cases h : luma p < ((threshold : Int) : Rat) ∧ 0 < p.a
    · exact Or.inl (if_pos h)
    · exact Or.inr (if_neg h)

theorem thresholdPixel_dark :
    thresholdPixel (200 : Rat) ⟨10, 10, 10, 255⟩ = ⟨0, 0, 0, 255⟩ := by
  unfold thresholdPixel
  rw [if_pos]
  refine ⟨?_, by norm_num⟩
  unfold luma
  norm_num

-- Witness for c1_threshold_classification at the first pixel of img0 with
-- threshold 200: its luma 2990/1000 is below 200 and its alpha is 255, so it
-- is classified opaque and written as solid black.
theorem c1_threshold_classification_witness :
    img0.pixels[0]? = some ⟨10, 10, 10, 255⟩ ∧
    (thresholdRaster (((200 : Int) : Int) : Rat) img0).pixels[0]? = some ⟨0, 0, 0, 255⟩ ∧
    ((opaquePixelSpec (((200 : Int) : Int) : Rat) ⟨10, 10, 10, 255⟩ ↔
        (⟨0, 0, 0, 255⟩ : RGBA) = ⟨0, 0, 0, 255⟩) ∧
      (¬ opaquePixelSpec (((200 : Int) : Int) : Rat) ⟨10, 10, 10, 255⟩ ↔
        (⟨0, 0, 0, 255⟩ : RGBA) = ⟨255, 255, 255, 0⟩) ∧
      ((⟨0, 0, 0, 255⟩ : RGBA) = ⟨0, 0, 0, 255⟩ ∨
        (⟨0, 0, 0, 255⟩ : RGBA) = ⟨255, 255, 255, 0⟩)) :=
  ⟨rfl, by simp [thresholdRaster, img0, thresholdPixel_dark],
    c1_threshold_classification img0 200 0 ⟨10, 10, 10, 255⟩ ⟨0, 0, 0, 255⟩ rfl
      (by simp [thresholdRaster, img0, thresholdPixel_dark])⟩

/-- Claim C6: for every raster and every strictly positive blur radius, the
Gaussian blur runs before the luma/threshold comparison — the mask equals
the thresholding of the blurred image.  Quantified over every possible blur
function `pblur`, so this is a fact about the stage ordering in
`make_transparent`, not about Pillow internals. -/
theorem c6_blur_before_threshold (pblur : Raster → Rat → Raster) (img : Raster)
    (threshold : Int) (r : Rat) (hr : 0 < r) :
    transparentMask pblur img threshold (some r)
      = thresholdRaster ((threshold : Int) : Rat) (pblur img r) := by
  rw [transparentMask_some, if_pos hr]

-- Witness for c6_blur_before_threshold with the identity blur, img0,
-- threshold 200 and radius 1.
theorem c6_blur_before_threshold_witness :
    (0 : Rat) < 1 ∧
    transparentMask blur0 img0 200 (some 1)
      = thresholdRaster (((200 : Int) : Int) : Rat) (blur0 img0 1) :=
  ⟨by norm_num, c6_blur_before_threshold blur0 img0 200 1 (by norm_num)⟩

/-- Claim C10: the mask produced by `make_transparent` has exactly the canvas
dimensions of the decoded input, for every threshold and every blur radius,
provided the blur function preserves the canvas size (as Pillow's
GaussianBlur does). -/
theorem c10_mask_dimensions (pblur : Raster → Rat → Raster) (img : Raster)
    (threshold : Int) (radius : Option Rat)
    (hblur : ∀ i r, (pblur i r).width = i.width ∧ (pblur i r).height = i.height) :
    (transparentMask pblur img threshold radius).width = img.width ∧
    (transparentMask pblur img threshold radius).height = img.height := by
  cases radius with
  | none =>
      rw [transparentMask_none]
      exact ⟨rfl, rfl⟩
  | some r =>
      rw [transparentMask_some]
      by_cases hr : 0 < r
      · rw [if_pos hr, thresholdRaster_width, thresholdRaster_height]
        exact hblur img r
      · rw [if_neg hr]
        exact ⟨rfl, rfl⟩

-- Witness for c10_mask_dimensions with the identity blur (which preserves
-- dimensions), img0, threshold 200 and radius 1.
theorem c10_mask_dimensions_witness :
    (∀ i r, (blur0 i r).width = i.width ∧ (blur0 i r).height = i.height) ∧
    ((transparentMask blur0 img0 200 (some 1)).width = img0.width ∧
      (transparentMask blur0 img0 200 (some 1)).height = img0.height) :=
  ⟨fun _ _ => ⟨rfl, rfl⟩,
    c10_mask_dimensions blur0 img0 200 (some 1) (fun _ _ => ⟨rfl, rfl⟩)⟩

/-- A JSON-decoded Python value as found in the request body.  `noneVal`
models Python `None`. -/
inductive PyVal where
  | int (n : Int)
  | float (q : Rat)
  | str (s : String)
  | bool (b : Bool)
  | noneVal
deriving DecidableEq, Repr

/-- Models Python's whitespace stripping (as done by `.strip()`, `int()` and
`float()`), over the ASCII whitespace the claims exercise. -/
def stripStr (s : String) : String :=
  String.mk (((s.toList.dropWhile Char.isWhitespace).reverse.dropWhile
    Char.isWhitespace).reverse)

/-- Value of a run of decimal digits. -/
def digitsToNat (cs : List Char) : Nat :=
  cs.foldl (fun acc c => 10 * acc + (c.toNat - 48)) 0

/-- Models the string case of Python `int(s)` (after stripping): an optional
sign followed by a non-empty digit run.  Underscore digit separators are
outside the model. -/
def parseIntLit (s : String) : Option Int :=
  let core : List Char → Option Int := fun rest =>
    if rest ≠ [] ∧ rest.all Char.isDigit then some (digitsToNat rest) else none
  match s.toList with
  | '-' :: t => (core t).map (fun n => -n)
  | '+' :: t => core t
  | t => core t

/-- Exponent part of a Python float literal: an optional sign followed by a
non-empty digit run. -/
def parseExpPart (cs : List Char) : Option Int :=
  let core : List Char → Option Int := fun rest =>
    if rest ≠ [] ∧ rest.all Char.isDigit then some (digitsToNat rest) else none
  match cs with
  | '-' :: t => (core t).map (fun n => -n)
  | '+' :: t => core t
  | t => core t

/-- Models the string case of Python `float(s)` (after stripping) as an exact
rational: optional sign, digits with an optional fractional part, optional
exponent.  The special values `inf`/`nan` and underscore separators are
outside the model. -/
def parseFloatLit (s : String) : Option Rat :=
  let p : Rat × List Char :=
    match s.toList with
    | '-' :: t => (-1, t)
    | '+' :: t => (1, t)
    | t => (1, t)
  let ip := p.2.takeWhile Char.isDigit
  let r2 := p.2.dropWhile Char.isDigit
  let q : List Char × List Char :=
    match r2 with
    | '.' :: t => (t.takeWhile Char.isDigit, t.dropWhile Char.isDigit)
    | t => ([], t)
  if ip = [] ∧ q.1 = [] then none
  else
    let mant : Rat :=
      p.1 * ((digitsToNat ip : Rat) + (digitsToNat q.1 : Rat) / ((10 : Rat) ^ q.1.length))
    match q.2 with
    | [] => some mant
    | 'e' :: t => (parseExpPart t).map (fun e => mant * (10 : Rat) ^ e)
    | 'E' :: t => (parseExpPart t).map (fun e => mant * (10 : Rat) ^ e)
    | _ => none

/-- Models Python `int(x)` on JSON-decoded values: identity on ints,
truncation toward zero on floats, literal parsing on strings (surrounding
whitespace ignored), 0/1 on booleans; `None` raises (`none` here). -/
def pyInt : PyVal → Option Int
  | PyVal.int n => some n
  | PyVal.float q => some (Int.tdiv q.num (q.den : Int))
  | PyVal.str s => parseIntLit (stripStr s)
  | PyVal.bool b => some (if b then 1 else 0)
  | PyVal.noneVal => none

/-- Models Python `float(x)` on JSON-decoded values, as exact rationals. -/
def pyFloat : PyVal → Option Rat
  | PyVal.int n => some (n : Rat)
  | PyVal.float q => some q
  | PyVal.str s => parseFloatLit (stripStr s)
  | PyVal.bool b => some (if b then 1 else 0)
  | PyVal.noneVal => none

/-- Models Python `str(x)` (for floats only up to repr differences, which no
claim depends on). -/
def pyStr : PyVal → String
  | PyVal.int n => toString n
  | PyVal.float q => toString q
  | PyVal.str s => s
  | PyVal.bool true => "True"
  | PyVal.bool false => "False"
  | PyVal.noneVal => "None"

/-- Models Python truthiness `bool(x)` on JSON-decoded values. -/
def pyTruthy : PyVal → Bool
  | PyVal.int n => n ≠ 0
  | PyVal.float q => q ≠ 0
  | PyVal.str s => s ≠ ""
  | PyVal.bool b => b
  | PyVal.noneVal => false

/-- Embeds `_to_int` (src/main.py lines 33-37): `int(val)`, with the given
default returned when `int` raises. -/
def to_int (val : PyVal) (d : Int) : Int :=
  (pyInt val).getD d

/-- Embeds `_to_float` (src/main.py lines 39-43): `float(val)`, with the
given default returned when `float` raises. -/
def to_float (val : PyVal) (d : Rat) : Rat :=
  (pyFloat val).getD d

/-- The JSON body fields the route handlers look at — plus `dither_mode`,
which the spec lists as configuration but which no code in src/main.py ever
reads.  `none` models an absent key (`data.get` returning `None`). -/
structure RequestData where
  threshold : Option PyVal
  alphamax : Option PyVal
  opttolerance : Option PyVal
  turdsize : Option PyVal
  grayscale_first : Option PyVal
  downscale : Option PyVal
  blur : Option PyVal
  blur_pillow : Option PyVal
  blur_im : Option PyVal
  dither_mode : Option PyVal
deriving DecidableEq, Repr

/-- A request body with every key absent. -/
def emptyRequest : RequestData :=
  ⟨none, none, none, none, none, none, none, none, none, none⟩

/-- Embeds `_pick_blur_modes` (src/main.py lines 45-76): explicit
`blur_pillow` / `blur_im` overrides win; otherwise a single `blur` value is
an ImageMagick blur when it is a `0x…` string and a Pillow radius when it
parses as a float. -/
def pick_blur_modes (blurValue blurPillowValue blurImValue : Option PyVal) :
    Option Rat × Option String :=
  let pr : Option Rat :=
    match blurPillowValue with
    | some v => pyFloat v
    | none => none
  let im : Option String :=
    match blurImValue with
    | some v =>
        let s := pyStr v
        if s.startsWith ("0x") then some s else none
    | none => none
  match pr, im, blurValue with
  | none, none, some v =>
      let s := stripStr (pyStr v)
      if s.startsWith ("0x") then (none, some s)
      else (pyFloat (PyVal.str s), none)
  | pr, im, _ => (pr, im)

/-- Embeds `TARGET_SIZE` (src/main.py line 12).  It is reported by the
`/health` route and used nowhere else in src/main.py. -/
def TARGET_SIZE : Nat × Nat := (4096, 4096)

/-- Default `threshold` (src/main.py lines 82, 209, 249, 312). -/
def THRESHOLD_DEFAULT : Int := 200

/-- Default `alphamax` = 3.0 (src/main.py lines 122, 250, 313). -/
def ALPHAMAX_DEFAULT : Rat := 3

/-- Default `opttolerance` = 2.0 (src/main.py lines 123, 251, 314). -/
def OPTTOLERANCE_DEFAULT : Rat := 2

/-- Default `turdsize` (src/main.py lines 124, 252, 315). -/
def TURDSIZE_DEFAULT : Int := 150

/-- The numeric/flag parameters the `/svg` and `/process-both` routes
extract from the request body. -/
structure SvgParams where
  threshold : Int
  alphamax : Rat
  opttolerance : Rat
  turdsize : Int
  grayscale : Bool
deriving DecidableEq, Repr

/-- Embeds the parameter extraction of the `/svg` route (src/main.py lines
249-253): each `data.get(key, default)` fed through `_to_int` / `_to_float`
/ `bool`. -/
def svgParams (data : RequestData) : SvgParams :=
  ⟨to_int (data.threshold.getD (PyVal.int 200)) 200,
    to_float (data.alphamax.getD (PyVal.float 3)) 3,
    to_float (data.opttolerance.getD (PyVal.float 2)) 2,
    to_int (data.turdsize.getD (PyVal.int 150)) 150,
    pyTruthy (data.grayscale_first.getD (PyVal.bool false))⟩

/-- The three temp-file names a single run of `convert_png_to_svg` draws from
`tempfile` (src/main.py lines 133-139); they vary from run to run. -/
structure TempNames where
  tempIn : String
  tempPbm : String
  tempOut : String
deriving DecidableEq, Repr

/-- The scratch directory a conversion run writes its temp files into,
modelled as a name-keyed store. -/
def FS : Type := List (String × List Nat)

/-- Write (or overwrite) a file. -/
def fsWrite (fs : FS) (name : String) (data : List Nat) : FS :=
  (name, data) :: fs

/-- Read a file back. -/
def fsRead : FS → String → Option (List Nat)
  | [], _ => none
  | (k, v) :: rest, name => if k = name then some v else fsRead rest name

theorem fsRead_fsWrite (fs : FS) (name : String) (data : List Nat) :
    fsRead (fsWrite fs name data) name = some data := by
  simp [fsWrite, fsRead]

/-- The options `convert_png_to_svg` puts on the ImageMagick command line
(src/main.py lines 142-157): optional `-colorspace Gray`, optional
`-resize`, optional `-blur`, then `-alpha off` and the PBM output (the
last two are unconditional and so not recorded). -/
structure MagickOpts where
  grayscale : Bool
  downscale : Option String
  blur : Option String
deriving DecidableEq, Repr

/-- Builds the `MagickOpts` exactly as the `if`s of src/main.py lines
145-154 do: `downscale` is included when truthy (via `str(...)`), the blur
string when it is a non-empty `0x…` string. -/
def magickOpts (grayscaleFirst : Bool) (downscale : Option PyVal)
    (imBlur : Option String) : MagickOpts :=
  ⟨grayscaleFirst,
    match downscale with
    | some v => if pyTruthy v then some (pyStr v) else none
    | none => none,
    match imBlur with
    | some s => if s.startsWith ("0x") then some s else none
    | none => none⟩

/-- The options `convert_png_to_svg` puts on the potrace command line
(src/main.py lines 161-168). -/
structure PotraceOpts where
  turdsize : Int
  alphamax : Rat
  opttolerance : Rat
deriving DecidableEq, Repr

/-- Embeds `convert_png_to_svg` (src/main.py lines 121-187).  The external
binaries are parameters: `magick` maps the bytes of its input file and the
assembled options to the bytes of the PBM file it writes (or a nonzero exit
status, which `subprocess.run(check=True)` turns into an exception), and
`potraceRun` likewise maps PBM bytes and options to SVG bytes.  The temp
files are threaded through an explicit per-run store keyed by this run's
temp names. -/
def convert_png_to_svg (magick : List Nat → MagickOpts → Except Nat (List Nat))
    (potraceRun : List Nat → PotraceOpts → Except Nat (List Nat))
    (pngData : List Nat) (alphamax : Rat) (opttolerance : Rat) (turdsize : Int)
    (imBlur : Option String) (grayscaleFirst : Bool) (downscale : Option PyVal)
    (tmp : TempNames) : Except String (List Nat) :=
  let fs1 := fsWrite [] tmp.tempIn pngData
  match fsRead fs1 tmp.tempIn with
  | none => Except.error ("SVG conversion error: missing input file")
  | some inputBytes =>
      match magick inputBytes (magickOpts grayscaleFirst downscale imBlur) with
      | Except.error code =>
          Except.error ("Vectorization failed: exit status " ++ toString code)
      | Except.ok pbmBytes =>
          let fs2 := fsWrite fs1 tmp.tempPbm pbmBytes
          match fsRead fs2 tmp.tempPbm with
          | none => Except.error ("SVG conversion error: missing pbm file")
          | some pbm =>
              match potraceRun pbm ⟨turdsize, alphamax, opttolerance⟩ with
              | Except.error code =>
                  Except.error ("Vectorization failed: exit status " ++ toString code)
              | Except.ok svgBytes =>
                  let fs3 := fsWrite fs2 tmp.tempOut svgBytes
                  match fsRead fs3 tmp.tempOut with
                  | none => Except.error ("SVG conversion error: missing svg file")
                  | some svg => Except.ok svg

/-- Embeds the `/transparent` route handler `transparent_only` (src/main.py
lines 193-229) after authentication and image fetch: parameter extraction,
blur selection, then `make_transparent`.  There is no dimension check of any
kind before or inside the pipeline. -/
def transparent_only (decode : List Nat → Option Raster)
    (pblur : Raster → Rat → Raster) (pngEncode : Raster → List Nat)
    (data : RequestData) (imageData : List Nat) : Except String (List Nat) :=
  let threshold := to_int (data.threshold.getD (PyVal.int 200)) 200
  let pb := pick_blur_modes data.blur data.blur_pillow data.blur_im
  make_transparent decode pblur pngEncode imageData threshold pb.1

/-- Embeds the `/svg` route handler `svg_only` (src/main.py lines 232-292)
after authentication and image fetch: parameter extraction, the binary mask,
then vectorization. -/
def svg_only (decode : List Nat → Option Raster)
    (pblur : Raster → Rat → Raster) (pngEncode : Raster → List Nat)
    (magick : List Nat → MagickOpts → Except Nat (List Nat))
    (potraceRun : List Nat → PotraceOpts → Except Nat (List Nat))
    (data : RequestData) (imageData : List Nat) (tmp : TempNames) :
    Except String (List Nat) :=
  let p := svgParams data
  let pb := pick_blur_modes data.blur data.blur_pillow data.blur_im
  match make_transparent decode pblur pngEncode imageData p.threshold pb.1 with
  | Except.error e => Except.error e
  | Except.ok binPng =>
      convert_png_to_svg magick potraceRun binPng p.alphamax p.opttolerance
        p.turdsize pb.2 p.grayscale data.downscale tmp

/-- Embeds the `/process-both` route handler `process_both` (src/main.py
lines 295-358) after authentication and image fetch: it returns both the
mask PNG and the SVG. -/
def process_both (decode : List Nat → Option Raster)
    (pblur : Raster → Rat → Raster) (pngEncode : Raster → List Nat)
    (magick : List Nat → MagickOpts → Except Nat (List Nat))
    (potraceRun : List Nat → PotraceOpts → Except Nat (List Nat))
    (data : RequestData) (imageData : List Nat) (tmp : TempNames) :
    Except String (List Nat × List Nat) :=
  let p := svgParams data
  let pb := pick_blur_modes data.blur data.blur_pillow data.blur_im
  match make_transparent decode pblur pngEncode imageData p.threshold pb.1 with
  | Except.error e => Except.error e
  | Except.ok outPng =>
      match convert_png_to_svg magick potraceRun outPng p.alphamax p.opttolerance
          p.turdsize pb.2 p.grayscale data.downscale tmp with
      | Except.error e => Except.error e
      | Except.ok svg => Except.ok (outPng, svg)

/-- Stand-in for the ImageMagick binary used by witnesses: echoes its input
file. -/
def magick0 : List Nat → MagickOpts → Except Nat (List Nat) :=
  fun l _ => Except.ok l

/-- Stand-in for the potrace binary used by witnesses: echoes its input
file. -/
def potrace0 : List Nat → PotraceOpts → Except Nat (List Nat) :=
  fun l _ => Except.ok l

/-- Concrete temp names for one run. -/
def tmp0 : TempNames := ⟨"in0.png", "mid0.pbm", "out0.svg"⟩

/-- Concrete temp names for a second run. -/
def tmp1 : TempNames := ⟨"in1.png", "mid1.pbm", "out1.svg"⟩

/-- `convert_png_to_svg` with the temp-file store resolved away: the run is
the composition of the two tool invocations, and its `ok` value is exactly
the tracer's complete output file. -/
theorem convert_eq (magick : List Nat → MagickOpts → Except Nat (List Nat))
    (potraceRun : List Nat → PotraceOpts → Except Nat (List Nat))
    (pngData : List Nat) (a o : Rat) (t : Int) (ib : Option String) (g : Bool)
    (d : Option PyVal) (tmp : TempNames) :
    convert_png_to_svg magick potraceRun pngData a o t ib g d tmp
      = (match magick pngData (magickOpts g d ib) with
        | Except.error code =>
            Except.error ("Vectorization failed: exit status " ++ toString code)
        | Except.ok pbm =>
            match potraceRun pbm ⟨t, a, o⟩ with
            | Except.error code =>
                Except.error ("Vectorization failed: exit status " ++ toString code)
            | Except.ok svg => Except.ok svg) := by
  unfold convert_png_to_svg
  simp only [fsRead_fsWrite]

/-- Claim C3: running the pipeline twice on identical raster bytes and an
identical configuration yields byte-identical mask output and byte-identical
SVG output.  In the embedding the external collaborators are fixed functions
of their inputs (the spec's determinism assumption about the excluded
tools), so the only run-to-run variation left in src/main.py is the choice
of temp-file names — and the result is invariant under it. -/
theorem c3_two_run_determinism (decode : List Nat → Option Raster)
    (pblur : Raster → Rat → Raster) (pngEncode : Raster → List Nat)
    (magick : List Nat → MagickOpts → Except Nat (List Nat))
    (potraceRun : List Nat → PotraceOpts → Except Nat (List Nat))
    (data : RequestData) (imageData : List Nat) (tmp tmp' : TempNames) :
    process_both decode pblur pngEncode magick potraceRun data imageData tmp
      = process_both decode pblur pngEncode magick potraceRun data imageData tmp' := by
  unfold process_both
  simp only [convert_eq]

/-- Claim C7: a conversion run returns either an error or a complete SVG
document: whenever `convert_png_to_svg` returns `ok`, both external steps
succeeded and the returned bytes are exactly the tracer's entire output
file for the prepared PBM — never a truncated or intermediate artifact. -/
theorem c7_complete_svg_or_error (magick : List Nat → MagickOpts → Except Nat (List Nat))
    (potraceRun : List Nat → PotraceOpts → Except Nat (List Nat))
    (pngData : List Nat) (a o : Rat) (t : Int) (ib : Option String) (g : Bool)
    (d : Option PyVal) (tmp : TempNames) :
    (∃ e, convert_png_to_svg magick potraceRun pngData a o t ib g d tmp
        = Except.error e) ∨
    (∃ pbm svg, magick pngData (magickOpts g d ib) = Except.ok pbm ∧
      potraceRun pbm ⟨t, a, o⟩ = Except.ok svg ∧
      convert_png_to_svg magick potraceRun pngData a o t ib g d tmp
        = Except.ok svg) := by
  rw [convert_eq]
  cases hm : magick pngData (magickOpts g d ib) with
  | error code =>
      exact Or.inl ⟨"Vectorization failed: exit status " ++ toString code, rfl⟩
  | ok pbm =>
      dsimp only
      cases hp : potraceRun pbm ⟨t, a, o⟩ with
      | error code =>
          exact Or.inl ⟨"Vectorization failed: exit status " ++ toString code, rfl⟩
      | ok svg => exact Or.inr ⟨pbm, svg, rfl, hp, rfl⟩

/-- Claim C8: when the caller supplies no value, the routes fall back to the
source's default configuration — threshold 200, alphamax 3.0,
opttolerance 2.0, turdsize 150, grayscale off — and those defaults lie in
the ranges the spec documents. -/
theorem c8_defaults_in_documented_ranges :
    svgParams emptyRequest
      = ⟨THRESHOLD_DEFAULT, ALPHAMAX_DEFAULT, OPTTOLERANCE_DEFAULT,
          TURDSIZE_DEFAULT, false⟩ ∧
    THRESHOLD_DEFAULT = 200 ∧
    (0 : Int) ≤ THRESHOLD_DEFAULT ∧ THRESHOLD_DEFAULT ≤ 255 ∧
    (100 : Int) ≤ TURDSIZE_DEFAULT ∧ TURDSIZE_DEFAULT ≤ 250 ∧
    (1 : Rat) ≤ ALPHAMAX_DEFAULT ∧ ALPHAMAX_DEFAULT ≤ 7 / 2 ∧
    (1 / 5 : Rat) ≤ OPTTOLERANCE_DEFAULT ∧ OPTTOLERANCE_DEFAULT ≤ 3 := by
  refine ⟨rfl, rfl, ?_⟩
  norm_num [THRESHOLD_DEFAULT, ALPHAMAX_DEFAULT, OPTTOLERANCE_DEFAULT, TURDSIZE_DEFAULT]

/-- The request body `data` with its four numeric fields replaced — helper
for stating claim C9. -/
def withNumericFields (data : RequestData) (t a o td : Option PyVal) : RequestData :=
  { data with
      threshold := t
      alphamax := a
      opttolerance := o
      turdsize := td }

/-- Claim C9: a numeric configuration field holding a value that `int()` /
`float()` cannot parse does not fail the conversion: the field silently
falls back to its default, and the `/svg` run proceeds exactly as if the
field were absent. -/
theorem c9_unparseable_fields_fall_back (decode : List Nat → Option Raster)
    (pblur : Raster → Rat → Raster) (pngEncode : Raster → List Nat)
    (magick : List Nat → MagickOpts → Except Nat (List Nat))
    (potraceRun : List Nat → PotraceOpts → Except Nat (List Nat))
    (data : RequestData) (imageData : List Nat) (tmp : TempNames)
    (s1 s2 s3 s4 : String)
    (h1 : pyInt (PyVal.str s1) = none) (h2 : pyFloat (PyVal.str s2) = none)
    (h3 : pyFloat (PyVal.str s3) = none) (h4 : pyInt (PyVal.str s4) = none) :
    svgParams (withNumericFields data (some (PyVal.str s1)) (some (PyVal.str s2))
        (some (PyVal.str s3)) (some (PyVal.str s4)))
      = svgParams (withNumericFields data none none none none) ∧
    svgParams (withNumericFields data (some (PyVal.str s1)) (some (PyVal.str s2))
        (some (PyVal.str s3)) (some (PyVal.str s4)))
      = ⟨THRESHOLD_DEFAULT, ALPHAMAX_DEFAULT, OPTTOLERANCE_DEFAULT, TURDSIZE_DEFAULT,
          pyTruthy (data.grayscale_first.getD (PyVal.bool false))⟩ ∧
    svg_only decode pblur pngEncode magick potraceRun
        (withNumericFields data (some (PyVal.str s1)) (some (PyVal.str s2))
          (some (PyVal.str s3)) (some (PyVal.str s4))) imageData tmp
      = svg_only decode pblur pngEncode magick potraceRun
        (withNumericFields data none none none none) imageData tmp := by
  have hs : svgParams (withNumericFields data (some (PyVal.str s1)) (some (PyVal.str s2))
      (some (PyVal.str s3)) (some (PyVal.str s4)))
      = ⟨THRESHOLD_DEFAULT, ALPHAMAX_DEFAULT, OPTTOLERANCE_DEFAULT, TURDSIZE_DEFAULT,
          pyTruthy (data.grayscale_first.getD (PyVal.bool false))⟩ := by
    unfold svgParams withNumericFields to_int to_float
    dsimp only
    simp only [Option.getD_some]
    rw [h1, h2, h3, h4]
    rfl
  have hs' : svgParams (withNumericFields data none none none none)
      = ⟨THRESHOLD_DEFAULT, ALPHAMAX_DEFAULT, OPTTOLERANCE_DEFAULT, TURDSIZE_DEFAULT,
          pyTruthy (data.grayscale_first.getD (PyVal.bool false))⟩ := rfl
  refine ⟨hs.trans hs'.symm, hs, ?_⟩
  unfold svg_only
  rw [hs, hs']
  rfl

/-- Sample image bytes used by witnesses. -/
def bytes0 : List Nat := [137, 80, 78, 71]

-- Witness for c9_unparseable_fields_fall_back: all four numeric fields set
-- to the string "abc", which neither int() nor float() parses.
theorem c9_unparseable_fields_fall_back_witness :
    pyInt (PyVal.str "abc") = none ∧ pyFloat (PyVal.str "abc") = none ∧
    (svgParams (withNumericFields emptyRequest (some (PyVal.str "abc"))
        (some (PyVal.str "abc")) (some (PyVal.str "abc")) (some (PyVal.str "abc")))
      = svgParams (withNumericFields emptyRequest none none none none) ∧
    svgParams (withNumericFields emptyRequest (some (PyVal.str "abc"))
        (some (PyVal.str "abc")) (some (PyVal.str "abc")) (some (PyVal.str "abc")))
      = ⟨THRESHOLD_DEFAULT, ALPHAMAX_DEFAULT, OPTTOLERANCE_DEFAULT, TURDSIZE_DEFAULT,
          pyTruthy (emptyRequest.grayscale_first.getD (PyVal.bool false))⟩ ∧
    svg_only decode0 blur0 enc0 magick0 potrace0
        (withNumericFields emptyRequest (some (PyVal.str "abc"))
          (some (PyVal.str "abc")) (some (PyVal.str "abc")) (some (PyVal.str "abc")))
        bytes0 tmp0
      = svg_only decode0 blur0 enc0 magick0 potrace0
        (withNumericFields emptyRequest none none none none) bytes0 tmp0) :=
  ⟨by decide, by decide,
    c9_unparseable_fields_fall_back decode0 blur0 enc0 magick0 potrace0
      emptyRequest bytes0 tmp0 "abc" "abc" "abc" "abc"
      (by decide) (by decide) (by decide) (by decide)⟩


/-- The spec's reading of claim C2, as a proposition about the embedded
code: some configuration of the mask pipeline reacts to the `dither_mode`
value — quantified over every possible decoder, blur and encoder, which
makes the proposition as easy as possible to satisfy. -/
def dither_influences_mask : Prop :=
  ∃ (decode : List Nat → Option Raster) (pblur : Raster → Rat → Raster)
    (pngEncode : Raster → List Nat) (data : RequestData)
    (imageData : List Nat) (v v' : Option PyVal),
    transparent_only decode pblur pngEncode
        { data with dither_mode := v } imageData
      ≠ transparent_only decode pblur pngEncode
        { data with dither_mode := v' } imageData

/-- Claim C2 counterexample: no choice of input, configuration or
collaborator behaviour makes the mask output react to `dither_mode`,
because no code in src/main.py ever reads that field — there is no
dithering stage at all. -/
theorem c2_dither_counterexample : ¬ dither_influences_mask := by
  rintro ⟨decode, pblur, pngEncode, data, imageData, v, v', hne⟩
  exact hne rfl

/-- Claim C2 amended: `dither_mode` has no influence on the pipeline — for
every input, every configuration and every collaborator behaviour, the
`/transparent` mask bytes and the `/svg` output are identical for any two
values of the field; the bitmap is always the hard luma threshold. -/
theorem c2_dither_has_no_effect (decode : List Nat → Option Raster)
    (pblur : Raster → Rat → Raster) (pngEncode : Raster → List Nat)
    (magick : List Nat → MagickOpts → Except Nat (List Nat))
    (potraceRun : List Nat → PotraceOpts → Except Nat (List Nat))
    (data : RequestData) (imageData : List Nat) (tmp : TempNames)
    (v v' : Option PyVal) :
    transparent_only decode pblur pngEncode
        { data with dither_mode := v } imageData
      = transparent_only decode pblur pngEncode
        { data with dither_mode := v' } imageData ∧
    svg_only decode pblur pngEncode magick potraceRun
        { data with dither_mode := v } imageData tmp
      = svg_only decode pblur pngEncode magick potraceRun
        { data with dither_mode := v' } imageData tmp :=
  ⟨rfl, rfl⟩

/-- Claim C5 counterexample: an input that decodes to a 2x2 raster — canvas
dimensions different from `TARGET_SIZE` — is not rejected: the
`/transparent` route runs the full pipeline and succeeds, because
src/main.py never compares input dimensions against `TARGET_SIZE` (the
constant only feeds the `/health` response). -/
theorem c5_no_size_check_counterexample :
    (img0.width, img0.height) ≠ TARGET_SIZE ∧
    transparent_only decode0 blur0 enc0 emptyRequest bytes0
      = Except.ok (enc0 (transparentMask blur0 img0 200 none)) := by
  exact ⟨by decide, rfl⟩

/-- Claim C5 amended: there is no strict mode — the code never checks the
canvas dimensions, so a conversion whose input decodes to dimensions
different from `TARGET_SIZE` proceeds through the full pipeline all the
same, succeeding whenever the image decodes at all. -/
theorem c5_no_dimension_check (decode : List Nat → Option Raster)
    (pblur : Raster → Rat → Raster) (pngEncode : Raster → List Nat)
    (data : RequestData) (imageData : List Nat) (img : Raster)
    (hdec : decode imageData = some img)
    (_hsize : (img.width, img.height) ≠ TARGET_SIZE) :
    transparent_only decode pblur pngEncode data imageData
      = Except.ok (pngEncode (transparentMask pblur img
          (to_int (data.threshold.getD (PyVal.int 200)) 200)
          (pick_blur_modes data.blur data.blur_pillow data.blur_im).1)) := by
  unfold transparent_only make_transparent
  rw [hdec]

-- Witness for c5_no_dimension_check with the concrete 2x2 decoder.
theorem c5_no_dimension_check_witness :
    decode0 bytes0 = some img0 ∧ (img0.width, img0.height) ≠ TARGET_SIZE ∧
    transparent_only decode0 blur0 enc0 emptyRequest bytes0
      = Except.ok (enc0 (transparentMask blur0 img0 200 none)) :=
  ⟨rfl, by decide,
    c5_no_dimension_check decode0 blur0 enc0 emptyRequest bytes0 img0 rfl (by decide)⟩

/-- A 1-bit bitmap as the spec's data model has it (section 3): width,
height, one opaque/transparent bit per pixel, row-major. -/
structure Bitmap where
  width : Nat
  height : Nat
  pixels : List Bool
deriving DecidableEq, Repr

/-- Modelled from the spec: the opaque test of the ContourTracer (spec 4.2),
with cells outside the canvas transparent. -/
def opaqueAt (b : Bitmap) (x y : Int) : Bool :=
  if 0 ≤ x ∧ x < (b.width : Int) ∧ 0 ≤ y ∧ y < (b.height : Int) then
    (b.pixels[y.toNat * b.width + x.toNat]?).getD false
  else false

/-- A lattice point of the pixel grid. -/
abbrev GridPoint := Int × Int

/-- A directed unit edge of the pixel grid. -/
abbrev GridEdge := GridPoint × GridPoint

/-- Modelled from the spec: the boundary edges contributed by the pixel at
`(x, y)` — one directed edge along each of its four sides whose neighbour is
transparent, oriented with the opaque region on the left (spec 4.2: the
tracer walks pixel-edge boundaries between opaque and transparent
regions). -/
def edgesAt (b : Bitmap) (x y : Nat) : List GridEdge :=
  let xi : Int := x
  let yi : Int := y
  if opaqueAt b xi yi then
    (if opaqueAt b xi (yi - 1) then [] else [((xi, yi), (xi + 1, yi))]) ++
    (if opaqueAt b (xi + 1) yi then [] else [((xi + 1, yi), (xi + 1, yi + 1))]) ++
    (if opaqueAt b xi (yi + 1) then [] else [((xi + 1, yi + 1), (xi, yi + 1))]) ++
    (if opaqueAt b (xi - 1) yi then [] else [((xi, yi + 1), (xi, yi))])
  else []

/-- Modelled from the spec: all boundary edges of the bitmap, produced in a
fixed scan order — the deterministic tie-break rule spec 4.2 requires. -/
def boundaryEdges (b : Bitmap) : List GridEdge :=
  (List.range b.height).flatMap
    (fun y => (List.range b.width).flatMap (fun x => edgesAt b x y))

/-- A traced contour: its boundary points in walk order, and whether the
walk closed back on its starting point (spec 3: every contour is closed). -/
structure Contour where
  points : List GridPoint
  closed : Bool
deriving DecidableEq, Repr

/-- Modelled from the spec: one boundary-following walk (spec 4.2,
Moore-neighbour style): from `cur`, repeatedly consume the first unused
edge leaving the current point until the walk returns to `start` or gets
stuck; `fuel` bounds the number of steps. -/
def walkLoop : Nat → List GridEdge → GridPoint → GridPoint → List GridPoint →
    Contour × List GridEdge
  | 0, es, cur, _, acc => (⟨(cur :: acc).reverse, false⟩, es)
  | fuel + 1, es, cur, start, acc =>
      if cur = start then (⟨(cur :: acc).reverse, true⟩, es)
      else
        match es.find? (fun e => decide (e.1 = cur)) with
        | none => (⟨(cur :: acc).reverse, false⟩, es)
        | some e => walkLoop fuel (es.erase e) e.2 start (cur :: acc)

/-- Modelled from the spec: decompose the boundary edges into loops, one
walk per first remaining edge, in scan order. -/
def extractLoops : Nat → List GridEdge → List Contour
  | 0, _ => []
  | _ + 1, [] => []
  | fuel + 1, e :: es =>
      let r := walkLoop (es.length + 1) es e.2 e.1 [e.1]
      r.1 :: extractLoops fuel r.2

/-- Modelled from the spec: the ContourTracer of spec 4.2 — a stage the
source delegates to the external potrace binary, so its implementation is
absent from src/ — extracting the closed pixel-edge boundaries of the
opaque region. -/
def traceContours (b : Bitmap) : List Contour :=
  extractLoops (boundaryEdges b).length (boundaryEdges b)

/-- An SVG document as the spec's data model has it (section 3): canvas
dimensions plus the traced paths. -/
structure SvgDocument where
  width : Nat
  height : Nat
  paths : List Contour
deriving DecidableEq, Repr

/-- Modelled from the spec: one serialized path element (spec 4.5). -/
def emitPath (c : Contour) : String :=
  "<path d=\"" ++
    String.intercalate (" ")
      (c.points.map (fun p => toString p.1 ++ "," ++ toString p.2)) ++ "\"/>"

/-- Modelled from the spec: the SvgEmitter (spec 4.5) — an `<svg>` root
sized to the canvas wrapping one path element per contour. -/
def emitSvg (doc : SvgDocument) : String :=
  ("<svg width=\"" ++ toString doc.width ++ "\" height=\"" ++
      toString doc.height ++ "\">" ++
    String.join (doc.paths.map emitPath)) ++ "</svg>"

/-- Modelled from the spec: the vectorization stage (ContourTracer followed
by SvgEmitter), failing only with a ProcessingError when a traced contour
fails to close (spec section 7). -/
def vectorizeBitmap (b : Bitmap) : Except String SvgDocument :=
  let cs := traceContours b
  if cs.all (fun c => c.closed) then Except.ok ⟨b.width, b.height, cs⟩
  else Except.error ("ProcessingError: contour failed to close")

/-- Claim C4: an all-transparent bitmap vectorizes successfully to a valid
SVG document with zero paths — an empty contour forest, not an error — and
its serialization is a bare `<svg>` root with no path elements. -/
theorem c4_all_transparent_empty_svg (b : Bitmap)
    (h : ∀ p ∈ b.pixels, p = false) :
    vectorizeBitmap b = Except.ok ⟨b.width, b.height, []⟩ ∧
    emitSvg ⟨b.width, b.height, []⟩
      = "<svg width=\"" ++ toString b.width ++ "\" height=\"" ++
          toString b.height ++ "\">" ++ "</svg>" := by
  have hop : ∀ x y, opaqueAt b x y = false := by
    intro x y
    unfold opaqueAt
    split
    · cases hg : b.pixels[y.toNat * b.width + x.toNat]? with
      | none => rfl
      | some p => simp [h p (List.getElem?_mem hg)]
    · rfl
  have hedges : boundaryEdges b = [] := by
    unfold boundaryEdges
    rw [List.flatMap_eq_nil_iff]
    intro y _
    rw [List.flatMap_eq_nil_iff]
    intro x _
    unfold edgesAt
    simp [hop]
  refine ⟨?_, ?_⟩
  · unfold vectorizeBitmap traceContours
    rw [hedges]
    rfl
  · unfold emitSvg
    simp [String.join, String.append_empty]

/-- A 2x2 all-transparent bitmap. -/
def bitmap0 : Bitmap := ⟨2, 2, [false, false, false, false]⟩

-- Witness for c4_all_transparent_empty_svg on the concrete 2x2
-- all-transparent bitmap.
theorem c4_all_transparent_empty_svg_witness :
    (∀ p ∈ bitmap0.pixels, p = false) ∧
    (vectorizeBitmap bitmap0 = Except.ok ⟨bitmap0.width, bitmap0.height, []⟩ ∧
      emitSvg ⟨bitmap0.width, bitmap0.height, []⟩
        = "<svg width=\"" ++ toString bitmap0.width ++ "\" height=\"" ++
            toString bitmap0.height ++ "\">" ++ "</svg>") :=
  ⟨by decide, c4_all_transparent_empty_svg bitmap0 (by decide)⟩

end ImgApi
